import Mathlib

/-!
Verification of the MedaidSleuth ETL pipeline (src/etl/).

Shallow embedding of the failure-handling core of the repository:
the tenacity retry wrapper (`@retry(stop=stop_after_attempt(n),
retry=retry_if_exception_type(...), reraise=True)` in medicaid_etl.py),
the resumable downloader `download_dataset`, the two GCS upload
implementations (medicaid_etl.py and upload_to_gcs.py), the BigQuery
load-error handling, the credential-file lifecycle of the side scripts,
and the startup configuration validation.

Machine details that do not affect the verified properties (wall-clock
progress logging, backoff sleep durations, actual network I/O) are
elided; control flow, error classification and the data written to disk
are embedded faithfully.
-/

/-- Python exception classes relevant to the ETL scripts.
`requests.ConnectionError`, `requests.Timeout`, `IOError` (= `OSError`)
and a catch-all for any other `Exception`.  The integrity failure in
`download_dataset` is `raise IOError(...)`, hence `ioError`. -/
inductive PyExc where
  | connectionError
  | timeout
  | ioError (msg : String)
  | otherExc (msg : String)
deriving DecidableEq, Repr

/-- The retry predicate of the `download_dataset` decorator:
`retry_if_exception_type((requests.ConnectionError, requests.Timeout, IOError))`. -/
def downloadRetryable : PyExc → Bool
  | PyExc.connectionError => true
  | PyExc.timeout => true
  | PyExc.ioError _ => true
  | PyExc.otherExc _ => false

/-- The retry predicate of the `upload_to_gcs` decorator in medicaid_etl.py:
`retry_if_exception_type(Exception)` — everything is retryable. -/
def uploadRetryable : PyExc → Bool := fun _ => true

/-- Tenacity retry loop, `rest` = number of retries still allowed after the
current attempt (`attempt` is the 1-based attempt number fed to the wrapped
operation, which is modelled as a function of the attempt number).
Returns the final outcome together with the number of invocations made.
Semantics of `stop_after_attempt` with `reraise=True`: a success returns at
once; a failure matching no retryable class is raised at once; a retryable
failure is re-attempted until attempts are exhausted, and then the *last*
failure itself is re-raised (not a wrapper error). -/
def retryFrom {ε α : Type} (retryable : ε → Bool) (op : Nat → Except ε α) :
    Nat → Nat → Except ε α × Nat
  | attempt, 0 =>
    match op attempt with
    | Except.ok a => (Except.ok a, 1)
    | Except.error e => (Except.error e, 1)
  | attempt, r + 1 =>
    match op attempt with
    | Except.ok a => (Except.ok a, 1)
    | Except.error e =>
      if retryable e then
        let p := retryFrom retryable op (attempt + 1) r
        (p.1, p.2 + 1)
      else (Except.error e, 1)

/-- `@retry(stop=stop_after_attempt(maxAttempts), retry=retry_if_exception_type(...),
reraise=True)` applied to `op`: at most `maxAttempts` invocations in total. -/
def retryExecute {ε α : Type} (retryable : ε → Bool) (maxAttempts : Nat)
    (op : Nat → Except ε α) : Except ε α × Nat :=
  retryFrom retryable op 1 (maxAttempts - 1)

/-- The HTTP response consumed by `download_dataset`: status code,
optional `Content-Length` header, and the body as the list of chunks
yielded by `response.iter_content`.  Bytes are modelled as `Nat`. -/
structure HttpResponse where
  status : Nat
  contentLength : Option Nat
  body : List (List Nat)
deriving Repr

/-- `resume_byte = local_path.stat().st_size` when the file exists
(an absent file is the empty list, size 0). -/
def resumeByte (localFile : List Nat) : Nat := localFile.length

/-- Effective resume offset after the status check in download_dataset:
kept only when `resume_byte > 0 and response.status_code == 206`,
reset to 0 otherwise (restart from scratch). -/
def effectiveResume (localFile : List Nat) (r : HttpResponse) : Nat :=
  if 0 < resumeByte localFile ∧ r.status = 206 then resumeByte localFile else 0

/-- File open mode: `"ab"` (append, `true`) exactly when resuming was
accepted with a 206, `"wb"` (truncate, `false`) otherwise. -/
def appendMode (localFile : List Nat) (r : HttpResponse) : Bool :=
  decide (0 < resumeByte localFile ∧ r.status = 206)

/-- `total_size = int(content_length) + resume_byte if content_length else None`. -/
def totalSize (localFile : List Nat) (r : HttpResponse) : Option Nat :=
  r.contentLength.map (fun cl => cl + effectiveResume localFile r)

/-- Python truthiness of `total_size` (None and 0 are both falsy),
as used by `if total_size and abs(actual_size - total_size) > 1024`. -/
def truthyOpt : Option Nat → Bool
  | none => false
  | some n => n != 0

/-- Python `abs(actual_size - total_size)` on integers. -/
def absDiff (a b : Nat) : Nat := ((a : Int) - (b : Int)).natAbs

/-- The bytes on disk after the streaming loop of `download_dataset`:
`open(local_path, mode)` truncates to empty under `"wb"` and keeps the
partial file under `"ab"`, then every chunk of the body is appended
(`if chunk: f.write(chunk)` — empty chunks write nothing, so a plain
concatenation of all chunks is the same byte sequence). -/
def downloadFinalFile (localFile : List Nat) (r : HttpResponse) : List Nat :=
  (if appendMode localFile r then localFile else []) ++ r.body.flatten

/-- The error message of the integrity failure (sizes elided;
the source interpolates the formatted sizes into this message). -/
def sizeMismatchMsg : String := "File size mismatch"

/-- Embeds `download_dataset(config)` from medicaid_etl.py, lines 202-281,
as a function of the pre-existing local file and the HTTP response.
`response.raise_for_status()` raises `requests.HTTPError` on a 4xx/5xx
status (an `IOError` subclass in Python, since `requests.RequestException`
derives from `IOError`).  On completion the on-disk size is compared to
`total_size`; a difference beyond the 1024-byte tolerance raises
`IOError(\x22File size mismatch...\x22)`; otherwise the local path (here: its
contents) is returned. -/
def download_dataset (localFile : List Nat) (r : HttpResponse) :
    Except PyExc (List Nat) :=
  if 400 ≤ r.status then Except.error (PyExc.ioError "HTTP error") else
  let final := downloadFinalFile localFile r
  if truthyOpt (totalSize localFile r) &&
      decide (1024 < absDiff final.length ((totalSize localFile r).getD 0)) then
    Except.error (PyExc.ioError sizeMismatchMsg)
  else
    Except.ok final

/-- State of the destination GCS blob before an upload call. -/
structure GcsState where
  blobExists : Bool
  blobSize : Nat
deriving DecidableEq, Repr

/-- Observable outcome of one upload call: whether
`blob.upload_from_filename` was invoked, how many bytes it moved,
and the returned locator. -/
structure UploadOutcome where
  transferInvoked : Bool
  bytesTransferred : Nat
  uri : String
deriving DecidableEq, Repr

/-- Embeds `upload_to_gcs(creds, project_id, bucket_name, filepath, blob_name)`
from upload_to_gcs.py, lines 30-50: `if blob.exists():` report the existing
object and return the locator without transferring; otherwise
`blob.upload_from_filename(filepath, ...)` moves the whole file. -/
def upload_to_gcs_script (st : GcsState) (bucketName blobName : String)
    (fileSize : Nat) : UploadOutcome :=
  if st.blobExists then
    { transferInvoked := false, bytesTransferred := 0
      uri := "gs://" ++ bucketName ++ "/" ++ blobName }
  else
    { transferInvoked := true, bytesTransferred := fileSize
      uri := "gs://" ++ bucketName ++ "/" ++ blobName }

/-- Embeds `upload_to_gcs(config, file_path)` from medicaid_etl.py,
lines 324-358: the bucket is created if absent, but the blob existence is
never checked — `blob.upload_from_filename(str(file_path), ...)` is called
unconditionally, whatever the destination state. -/
def upload_to_gcs_etl (_st : GcsState) (bucketName blobName : String)
    (fileSize : Nat) : UploadOutcome :=
  { transferInvoked := true, bytesTransferred := fileSize
    uri := "gs://" ++ bucketName ++ "/" ++ blobName }

/-- The lines logged by `load_to_bigquery` for a terminal job's error list:
`for error in load_job.errors: logger.error(f"BigQuery error: {error}")`
— one line per record, each record verbatim. -/
def load_job_error_lines (errors : List String) : List String :=
  errors.map (fun e => "BigQuery error: " ++ e)

/-- Embeds the terminal-state handling of `load_to_bigquery` in
medicaid_etl.py, lines 404-421 (identically upload_to_gcs.py lines 92-101):
once the poll loop sees the job done, `if load_job.errors:` logs every
record and raises `RuntimeError(f"BigQuery load job failed with {n} error(s)")`;
otherwise the destination table summary (row count, byte size) is returned.
Result: the logged error lines paired with the raised-or-returned outcome. -/
def load_to_bigquery_result (errors : List String) (rows bytes : Nat) :
    List String × Except String (Nat × Nat) :=
  if errors.isEmpty then
    ([], Except.ok (rows, bytes))
  else
    (load_job_error_lines errors,
     Except.error ("BigQuery load job failed with " ++
       toString errors.length ++ " error(s)"))

/-- Observable end state of one run of a side script's `main`:
was the decrypted temporary credential file unlinked, what status record
was last written, and did an exception escape. -/
structure ScriptRun where
  credFileDeleted : Bool
  status : String
  raised : Bool
deriving DecidableEq, Repr

/-- Embeds `main()` of bg_upload.py, lines 18-57, as a function of the
environment: whether the destination blob already exists and whether the
transfer raises.  The temporary credential file is written first; it is
unlinked only on the two success paths (`os.unlink(tmp.name)` at lines 39
and 52).  The `except` clause writes an ERROR status and re-raises
*without* unlinking. -/
def bg_upload_main (blobAlreadyThere uploadRaises : Bool) : ScriptRun :=
  if blobAlreadyThere then
    { credFileDeleted := true, status := "DONE", raised := false }
  else if uploadRaises then
    { credFileDeleted := false, status := "ERROR", raised := true }
  else
    { credFileDeleted := true, status := "DONE", raised := false }

/-- Embeds `main()` of upload_to_gcs.py, lines 161-200, as a function of
whether any step inside the `try` block raises: the credential file is
unlinked in the `finally` clause, hence on every exit path. -/
def upload_script_main (stepRaises : Bool) : ScriptRun :=
  { credFileDeleted := true, status := "", raised := stepRaises }

/-- Python truthiness of `self.project_id` (`os.environ.get` yields None
when unset; None and the empty string are falsy). -/
def pyTruthyStr : Option String → Bool
  | none => false
  | some s => !s.isEmpty

/-- Leading-whitespace removal, the part of Python's `str.strip()` that
determines the first character of the stripped value. -/
def stripLeading : List Char → List Char
  | [] => []
  | c :: cs => if c.isWhitespace then stripLeading cs else c :: cs

/-- `value = self._raw_credentials.strip()` followed by
`value.startswith("{")`: true exactly when the first non-whitespace
character of the payload is an opening brace (trailing strip cannot change
the first character, and an all-whitespace payload strips to the empty
string, which starts with nothing). -/
def startsWithBrace (s : String) : Bool :=
  match stripLeading s.data with
  | [] => false
  | c :: _ => c = '\x7b'

/-- Embeds `ETLConfig.validate` plus `_resolve_credentials`
(medicaid_etl.py lines 115-149): missing credentials or project id →
`SystemExit(1)`; else, a payload whose stripped value starts with a brace
is parsed as JSON — invalid JSON → `SystemExit(1)`; a non-brace value is a
file path — missing file → `SystemExit(1)`.  JSON well-formedness of the
payload is abstracted as the boolean `jsonValid`, file presence as
`credFileExists`. -/
def ETLConfig_validate (rawCred : String) (projectId : Option String)
    (jsonValid credFileExists : Bool) : Except Nat Unit :=
  if rawCred.isEmpty || !(pyTruthyStr projectId) then Except.error 1
  else if startsWithBrace rawCred then
    if jsonValid then Except.ok () else Except.error 1
  else if credFileExists then Except.ok () else Except.error 1

/-- Which phases of `main()` (medicaid_etl.py lines 497-554) ran, and
whether the process exited early with a code. -/
structure EtlMainRun where
  exitCode : Option Nat
  downloadPhase : Bool
  uploadPhase : Bool
  loadPhase : Bool
deriving DecidableEq, Repr

/-- Embeds the startup sequencing of `main()` in medicaid_etl.py:
`config.validate()` runs before any phase; on `SystemExit(1)` no phase is
ever invoked.  After validation, the download phase runs unless
`SKIP_DOWNLOAD` (which itself exits 1 when the local file is absent), the
upload phase unless `SKIP_GCS_UPLOAD`, and the load phase always.
Failures inside the phases themselves are outside this embedding. -/
def etl_main (rawCred : String) (projectId : Option String)
    (jsonValid credFileExists : Bool)
    (skipDownload skipUpload localFileThere : Bool) : EtlMainRun :=
  match ETLConfig_validate rawCred projectId jsonValid credFileExists with
  | Except.error c =>
    { exitCode := some c, downloadPhase := false
      uploadPhase := false, loadPhase := false }
  | Except.ok _ =>
    if skipDownload && !localFileThere then
      { exitCode := some 1, downloadPhase := false
        uploadPhase := false, loadPhase := false }
    else
      { exitCode := none, downloadPhase := !skipDownload
        uploadPhase := !skipUpload, loadPhase := true }

/-- Helper: when every attempt in the remaining window fails with a
retryable error, the retry loop performs every allowed invocation and
ends with the error of the last attempt. -/
theorem retryFrom_exhaust {ε α : Type} (retryable : ε → Bool)
    (op : Nat → Except ε α) (err : Nat → ε) :
    ∀ rest attempt,
      (∀ i, i ≤ rest → op (attempt + i) = Except.error (err (attempt + i))) →
      (∀ i, i ≤ rest → retryable (err (attempt + i)) = true) →
      retryFrom retryable op attempt rest
        = (Except.error (err (attempt + rest)), rest + 1) := by
  intro rest
  induction rest with
  | zero =>
    intro attempt hop hr
    have h0 := hop 0 (Nat.le_refl 0)
    rw [Nat.add_zero] at h0
    simp [retryFrom, h0]
  | succ r ih =>
    intro attempt hop hr
    have h0 := hop 0 (Nat.zero_le _)
    have hr0 := hr 0 (Nat.zero_le _)
    rw [Nat.add_zero] at h0 hr0
    have hrec := ih (attempt + 1)
      (fun i hi => by
        have h := hop (i + 1) (Nat.succ_le_succ hi)
        rwa [show attempt + (i + 1) = attempt + 1 + i from by omega] at h)
      (fun i hi => by
        have h := hr (i + 1) (Nat.succ_le_succ hi)
        rwa [show attempt + (i + 1) = attempt + 1 + i from by omega] at h)
    rw [show attempt + (r + 1) = attempt + 1 + r from by omega]
    simp [retryFrom, h0, hr0, hrec]

/-- Claim C4: under `stop_after_attempt(3)`, an operation that fails with a
retryable error on its first two invocations and succeeds on the third is
invoked exactly 3 times and its success value is returned; an operation
whose failure matches no retryable class is invoked exactly once and that
failure is returned. -/
theorem retry_policy_attempt_counts {ε α : Type} (retryable : ε → Bool)
    (op op2 : Nat → Except ε α) (e1 e2 e : ε) (a : α)
    (h1 : op 1 = Except.error e1) (h2 : op 2 = Except.error e2)
    (h3 : op 3 = Except.ok a)
    (hr1 : retryable e1 = true) (hr2 : retryable e2 = true)
    (hf : ∀ n, op2 n = Except.error e) (hnr : retryable e = false) :
    retryExecute retryable 3 op = (Except.ok a, 3) ∧
    retryExecute retryable 3 op2 = (Except.error e, 1) := by
  constructor
  · simp [retryExecute, retryFrom, h1, h2, h3, hr1, hr2]
  · simp [retryExecute, retryFrom, hf 1, hnr]

/-- Witness for C4: a boolean failure type where `true` is retryable;
one operation succeeds on attempt 3, the other always fails non-retryably. -/
theorem retry_policy_attempt_counts_witness :
    retryExecute (fun b : Bool => b) 3
        (fun n => if 3 ≤ n then Except.ok 7 else Except.error true)
      = (Except.ok 7, 3) ∧
    retryExecute (fun b : Bool => b) 3
        (fun _ => (Except.error false : Except Bool Nat))
      = (Except.error false, 1) :=
  retry_policy_attempt_counts (fun b => b) _ _ true true false 7
    rfl rfl rfl rfl rfl (fun _ => rfl) rfl

/-- Claim C7: when every allowed attempt fails with a retryable failure,
the wrapper (with `reraise=True`) performs exactly `n` invocations and
re-raises the failure of the last invocation itself, unchanged. -/
theorem retry_exhaustion_returns_last_failure {ε α : Type}
    (retryable : ε → Bool) (op : Nat → Except ε α) (err : Nat → ε)
    (n : Nat) (hn : 1 ≤ n)
    (hop : ∀ i, 1 ≤ i → i ≤ n → op i = Except.error (err i))
    (hr : ∀ i, 1 ≤ i → i ≤ n → retryable (err i) = true) :
    retryExecute retryable n op = (Except.error (err n), n) := by
  have h := retryFrom_exhaust retryable op err (n - 1) 1
    (fun i hi => hop (1 + i) (by omega) (by omega))
    (fun i hi => hr (1 + i) (by omega) (by omega))
  unfold retryExecute
  rw [h, show 1 + (n - 1) = n from by omega, show n - 1 + 1 = n from by omega]

/-- Witness for C7: two attempts, every failure retryable, error value is
the attempt number — the returned failure is the one of attempt 2. -/
theorem retry_exhaustion_returns_last_failure_witness :
    retryExecute (fun _ : Nat => true) 2
        (fun i => (Except.error i : Except Nat Nat))
      = (Except.error 2, 2) :=
  retry_exhaustion_returns_last_failure (fun _ => true) _ (fun i => i) 2
    (by decide) (fun _ _ _ => rfl) (fun _ _ _ => rfl)

/-- Claim C1 (code bug): the size-mismatch integrity failure of
`download_dataset` is raised as an `IOError`, and the enclosing retry
decorator lists `IOError` among its retryable exception classes
(`retry_if_exception_type((requests.ConnectionError, requests.Timeout,
IOError))`), so the wrapper re-invokes the download after an integrity
failure — here a response declaring 5000 bytes but delivering 100 makes
the wrapped download run all 5 allowed attempts, contradicting the spec's
rule that an integrity failure is fatal and never retried. -/
theorem integrity_failure_retried_by_wrapper :
    download_dataset []
        { status := 200, contentLength := some 5000
          body := [List.replicate 100 0] }
      = Except.error (PyExc.ioError sizeMismatchMsg) ∧
    downloadRetryable (PyExc.ioError sizeMismatchMsg) = true ∧
    (retryExecute downloadRetryable 5
        (fun _ => download_dataset []
          { status := 200, contentLength := some 5000
            body := [List.replicate 100 0] })).2 = 5 := by
  refine ⟨rfl, rfl, rfl⟩

/-- Claim C2: when a resume was attempted (nonzero local file, hence a
Range request) but the remote answers with a non-206 status, the partial
file is discarded: the bytes on disk afterwards are exactly the fresh
response body, and any successful return carries exactly those bytes. -/
theorem resume_rejected_restarts_from_zero (localFile : List Nat)
    (r : HttpResponse) (_hnz : 0 < localFile.length) (hns : r.status ≠ 206) :
    downloadFinalFile localFile r = r.body.flatten ∧
    ∀ res, download_dataset localFile r = Except.ok res →
      res = r.body.flatten := by
  have hmode : appendMode localFile r = false := by
    simp [appendMode, resumeByte, hns]
  have hfile : downloadFinalFile localFile r = r.body.flatten := by
    simp [downloadFinalFile, hmode]
  refine ⟨hfile, ?_⟩
  intro res hres
  simp only [download_dataset] at hres
  split at hres
  · exact absurd hres (by simp)
  · split at hres
    · exact absurd hres (by simp)
    · rw [← hfile]
      exact ((Except.ok.injEq _ _).mp hres).symm

/-- Witness for C2: a 2-byte partial file, a 200 (non-206) answer with a
3-byte body — the file on disk afterwards is exactly that body. -/
theorem resume_rejected_restarts_from_zero_witness :
    downloadFinalFile [9, 9]
        { status := 200, contentLength := none, body := [[1, 2, 3]] }
      = ([[1, 2, 3]] : List (List Nat)).flatten :=
  (resume_rejected_restarts_from_zero [9, 9]
    { status := 200, contentLength := none, body := [[1, 2, 3]] }
    (by decide) (by decide)).1

/-- Claim C3: when `total_size` is known (Content-Length present, plus any
resumed offset), a final on-disk size off by more than the 1024-byte
tolerance makes `download_dataset` raise the integrity `IOError`, and a
final size within the tolerance makes it return the local file
successfully. -/
theorem download_integrity_check (localFile : List Nat) (r : HttpResponse)
    (hst : r.status < 400)
    (ht : truthyOpt (totalSize localFile r) = true) :
    (1024 < absDiff (downloadFinalFile localFile r).length
        ((totalSize localFile r).getD 0) →
      download_dataset localFile r
        = Except.error (PyExc.ioError sizeMismatchMsg)) ∧
    (absDiff (downloadFinalFile localFile r).length
        ((totalSize localFile r).getD 0) ≤ 1024 →
      download_dataset localFile r
        = Except.ok (downloadFinalFile localFile r)) := by
  constructor
  · intro h
    simp only [download_dataset]
    rw [if_neg (by omega), if_pos (by simp [ht, h])]
  · intro h
    simp only [download_dataset]
    rw [if_neg (by omega), if_neg (by simp [ht]; omega)]

/-- Witness for C3: with Content-Length 3 and a 3-byte body the download
returns the file; with Content-Length 5000 and a 1-byte body it raises
the integrity error. -/
theorem download_integrity_check_witness :
    download_dataset []
        { status := 200, contentLength := some 3, body := [[1, 2, 3]] }
      = Except.ok (downloadFinalFile []
        { status := 200, contentLength := some 3, body := [[1, 2, 3]] }) ∧
    download_dataset []
        { status := 200, contentLength := some 5000, body := [[1]] }
      = Except.error (PyExc.ioError sizeMismatchMsg) :=
  ⟨(download_integrity_check []
      { status := 200, contentLength := some 3, body := [[1, 2, 3]] }
      (by decide) (by decide)).2 (by decide),
   (download_integrity_check []
      { status := 200, contentLength := some 5000, body := [[1]] }
      (by decide) (by decide)).1 (by decide)⟩

/-- Claim C10: when the response carries no Content-Length header the
size/integrity check is skipped entirely: the download returns success,
whatever the final on-disk size. -/
theorem no_content_length_skips_check (localFile : List Nat)
    (r : HttpResponse) (hst : r.status < 400)
    (hcl : r.contentLength = none) :
    download_dataset localFile r
      = Except.ok (downloadFinalFile localFile r) := by
  simp only [download_dataset]
  rw [if_neg (by omega), if_neg (by simp [truthyOpt, totalSize, hcl])]

/-- Witness for C10: a response with no Content-Length and a 1-byte body
appended to a 5-byte partial file under a 200 status succeeds. -/
theorem no_content_length_skips_check_witness :
    download_dataset [5, 5, 5, 5, 5]
        { status := 200, contentLength := none, body := [[7]] }
      = Except.ok (downloadFinalFile [5, 5, 5, 5, 5]
        { status := 200, contentLength := none, body := [[7]] }) :=
  no_content_length_skips_check [5, 5, 5, 5, 5]
    { status := 200, contentLength := none, body := [[7]] }
    (by decide) rfl

/-- Claim C5 counterexample: `upload_to_gcs` in medicaid_etl.py invokes the
transfer primitive even when the destination object already exists — it
never checks blob existence, so an existing 100-byte object is re-uploaded
in full rather than skipped. -/
theorem upload_etl_transfers_despite_existing_object :
    ({ blobExists := true, blobSize := 100 } : GcsState).blobExists = true ∧
    (upload_to_gcs_etl { blobExists := true, blobSize := 100 }
      "medicaid-raw-data" "medicaid_provider_spending.csv"
      100).transferInvoked = true ∧
    (upload_to_gcs_etl { blobExists := true, blobSize := 100 }
      "medicaid-raw-data" "medicaid_provider_spending.csv"
      100).bytesTransferred = 100 :=
  ⟨rfl, rfl, rfl⟩

/-- Claim C5 (amended): in upload_to_gcs.py, an existing destination object
makes the upload skip entirely — the transfer primitive is not invoked,
zero bytes move, and the existing object's locator is returned as the
result; the `upload_to_gcs` of medicaid_etl.py, by contrast, invokes the
transfer unconditionally. -/
theorem upload_idempotency_skip (st : GcsState) (bucketName blobName : String)
    (fileSize : Nat) (h : st.blobExists = true) :
    (upload_to_gcs_script st bucketName blobName fileSize).transferInvoked
      = false ∧
    (upload_to_gcs_script st bucketName blobName fileSize).bytesTransferred
      = 0 ∧
    (upload_to_gcs_script st bucketName blobName fileSize).uri
      = "gs://" ++ bucketName ++ "/" ++ blobName ∧
    (upload_to_gcs_etl st bucketName blobName fileSize).transferInvoked
      = true := by
  simp [upload_to_gcs_script, upload_to_gcs_etl, h]

/-- Witness for C5 (amended): concrete existing object, 5-byte local file. -/
theorem upload_idempotency_skip_witness :
    (upload_to_gcs_script { blobExists := true, blobSize := 5 }
      "bkt" "obj.csv" 5).transferInvoked = false ∧
    (upload_to_gcs_script { blobExists := true, blobSize := 5 }
      "bkt" "obj.csv" 5).bytesTransferred = 0 ∧
    (upload_to_gcs_script { blobExists := true, blobSize := 5 }
      "bkt" "obj.csv" 5).uri = "gs://" ++ "bkt" ++ "/" ++ "obj.csv" ∧
    (upload_to_gcs_etl { blobExists := true, blobSize := 5 }
      "bkt" "obj.csv" 5).transferInvoked = true :=
  upload_idempotency_skip { blobExists := true, blobSize := 5 }
    "bkt" "obj.csv" 5 rfl

/-- Claim C6: a terminal load job with a non-empty error list makes the
runner fail rather than return success, the logged failure output is one
line per error record (each record verbatim), and every record of the
list appears in that output. -/
theorem load_job_errors_fatal (errors : List String) (rows bytes : Nat)
    (h : errors ≠ []) :
    (∃ msg, (load_to_bigquery_result errors rows bytes).2
      = Except.error msg) ∧
    (load_to_bigquery_result errors rows bytes).1
      = load_job_error_lines errors ∧
    ∀ e ∈ errors,
      ("BigQuery error: " ++ e)
        ∈ (load_to_bigquery_result errors rows bytes).1 := by
  have hne : errors.isEmpty = false := by
    simpa [List.isEmpty_iff] using h
  refine ⟨⟨"BigQuery load job failed with " ++ toString errors.length
    ++ " error(s)", ?_⟩, ?_, ?_⟩
  · simp [load_to_bigquery_result, hne]
  · simp [load_to_bigquery_result, hne]
  · intro e he
    simp only [load_to_bigquery_result, hne, Bool.false_eq_true, if_false,
      load_job_error_lines]
    exact List.mem_map_of_mem _ he

/-- Witness for C6: a job ending with exactly two error records fails and
both records appear verbatim in the logged lines. -/
theorem load_job_errors_fatal_witness :
    ("BigQuery error: " ++ "bad row 7")
      ∈ (load_to_bigquery_result ["bad row 7", "bad row 9"] 0 0).1 ∧
    ("BigQuery error: " ++ "bad row 9")
      ∈ (load_to_bigquery_result ["bad row 7", "bad row 9"] 0 0).1 :=
  ⟨(load_job_errors_fatal ["bad row 7", "bad row 9"] 0 0 (by simp)).2.2
      "bad row 7" (by simp),
   (load_job_errors_fatal ["bad row 7", "bad row 9"] 0 0 (by simp)).2.2
      "bad row 9" (by simp)⟩

/-- Claim C8 counterexample: bg_upload.py's error path leaks the decrypted
credential file — when the upload raises, `main` writes an ERROR status
and re-raises without unlinking the temporary file, so credential
material persists past the failing run. -/
theorem bg_upload_error_path_leaks_credentials :
    (bg_upload_main false true).raised = true ∧
    (bg_upload_main false true).credFileDeleted = false :=
  ⟨rfl, rfl⟩

/-- Claim C8 (amended): the `main` of upload_to_gcs.py deletes the
temporary credential file on every exit path (its unlink sits in a
`finally` clause), while the `main` of bg_upload.py deletes it only on
the exit paths where no exception escapes. -/
theorem credential_file_cleanup (stepRaises blobThere uploadRaises : Bool)
    (h : (bg_upload_main blobThere uploadRaises).raised = false) :
    (upload_script_main stepRaises).credFileDeleted = true ∧
    (bg_upload_main blobThere uploadRaises).credFileDeleted = true := by
  refine ⟨rfl, ?_⟩
  revert h
  cases blobThere <;> cases uploadRaises <;> simp [bg_upload_main]

/-- Witness for C8 (amended): a script run whose step raises still deletes
the file; a bg_upload run that completes without raising deletes it. -/
theorem credential_file_cleanup_witness :
    (upload_script_main true).credFileDeleted = true ∧
    (bg_upload_main false false).credFileDeleted = true :=
  credential_file_cleanup true false false rfl

/-- Claim C9: a missing credential payload, a falsy project identifier, or
an inline credential payload that is malformed JSON each make the pipeline
exit with code 1 at startup, before the download, upload, or load phase is
invoked. -/
theorem config_failure_fatal_at_startup (rawCred : String)
    (projectId : Option String)
    (jsonValid credFileExists skipDownload skipUpload localFileThere : Bool)
    (h : rawCred = "" ∨ pyTruthyStr projectId = false ∨
      (startsWithBrace rawCred = true ∧ jsonValid = false)) :
    etl_main rawCred projectId jsonValid credFileExists
        skipDownload skipUpload localFileThere
      = { exitCode := some 1, downloadPhase := false
          uploadPhase := false, loadPhase := false } := by
  have hval : ETLConfig_validate rawCred projectId jsonValid credFileExists
      = Except.error 1 := by
    unfold ETLConfig_validate
    rcases h with h | h | ⟨h1, h2⟩
    · rw [if_pos (by subst h; rw [Bool.or_eq_true]; exact Or.inl (by decide))]
    · rw [if_pos (by rw [Bool.or_eq_true]; exact Or.inr (by rw [h]; rfl))]
    · by_cases hc : (rawCred.isEmpty || !(pyTruthyStr projectId)) = true
      · rw [if_pos hc]
      · rw [if_neg hc, if_pos h1, if_neg (by simp [h2])]
  simp [etl_main, hval]

/-- Witness for C9: all three startup failures at concrete inputs —
no credential material, an empty project id, and a malformed inline
JSON payload. -/
theorem config_failure_fatal_at_startup_witness :
    etl_main "" (some "my-project") true true false false true
      = { exitCode := some 1, downloadPhase := false
          uploadPhase := false, loadPhase := false } ∧
    etl_main "sa.json" (some "") true true false false true
      = { exitCode := some 1, downloadPhase := false
          uploadPhase := false, loadPhase := false } ∧
    etl_main "\x7b not json" (some "my-project") false true false false true
      = { exitCode := some 1, downloadPhase := false
          uploadPhase := false, loadPhase := false } :=
  ⟨config_failure_fatal_at_startup "" (some "my-project") true true
      false false true (Or.inl rfl),
   config_failure_fatal_at_startup "sa.json" (some "") true true
      false false true (Or.inr (Or.inl rfl)),
   config_failure_fatal_at_startup "\x7b not json" (some "my-project")
      false true false false true (Or.inr (Or.inr ⟨by decide, rfl⟩))⟩

/-- Helper check: the `SKIP_DOWNLOAD`-with-missing-file startup exit of
`main` also runs no phase (medicaid_etl.py lines 508-512). -/
theorem etl_main_skip_download_missing_file :
    etl_main "sa.json" (some "my-project") true true true false false
      = { exitCode := some 1, downloadPhase := false
          uploadPhase := false, loadPhase := false } := rfl
